import Mathlib

/-!
Verification development for the effective-typescript snippet repository.
The definitions below are a shallow embedding of the runtime behavior of the
TypeScript snippets; JS numbers are modeled as Int, JS objects used as string
maps are modeled as association lists whose lookup follows last-assignment-wins
(an assignment conses the new binding, List.lookup returns the first match),
and a thrown or rejected JS error value e is carried in its stringified form,
i.e. as the string that the template interpolation of e would produce.
-/

/-! ## Item 28 (src/src/C4/I28.ts): page-load state -/

/-- First version of the page state (I28.ts lines 6-10): pageText, isLoading
and an optional error, all independent, so invalid combinations are
representable. -/
structure PageState where
  pageText : String
  isLoading : Bool
  error : Option String
deriving DecidableEq

/-- RequestPending (I28.ts lines 52-54): tag "pending", no further data. -/
inductive RequestState where
  /-- tag "pending", carries nothing -/
  | pending : RequestState
  /-- tag "error", carries the error string (RequestError, lines 56-59) -/
  | error (error : String) : RequestState
  /-- tag "ok", carries the page text (RequestSuccess, lines 61-64) -/
  | ok (pageText : String) : RequestState
deriving DecidableEq

/-- The literal value of the state field of a RequestState record. -/
def RequestState.tag : RequestState → String
  | .pending => "pending"
  | .error _ => "error"
  | .ok _ => "ok"

def RequestState.isPending : RequestState → Bool
  | .pending => true
  | _ => false

def RequestState.isErrorTag : RequestState → Bool
  | .error _ => true
  | _ => false

def RequestState.isOkTag : RequestState → Bool
  | .ok _ => true
  | _ => false

/-- PageState2 (I28.ts lines 68-71): the current page plus a map from page
name to the state of its request, modeled as an association list. -/
structure PageState2 where
  currentPage : String
  requests : List (String × RequestState)
deriving DecidableEq

/-- JS object assignment m[k] = v on a string-keyed map: the new binding
shadows any older one under List.lookup. -/
def reqSet (p : String) (r : RequestState) (m : List (String × RequestState)) :
    List (String × RequestState) :=
  (p, r) :: m

/-- renderPage2 (I28.ts lines 79-96). The lookup of currentPage in requests
may miss (undefined in JS, where reading .state then fails), so the result is
an Option; the switch returns one string per tag and its default branch
returns no string. -/
def renderPage2 (s : PageState2) : Option String :=
  match List.lookup s.currentPage s.requests with
  | none => none
  | some requestState =>
    match requestState with
    | .pending => some "Loading"
    | .error e => some ("Error: " ++ e)
    | .ok t => some ("<h1>" ++ s.currentPage ++ "</h1><p>" ++ t ++ "</p>")

/-- renderPage (I28.ts lines 12-19), first version: error message if error is
set, else loading text if isLoading, else the page text. -/
def renderPage (s : PageState) : String :=
  match s.error with
  | some e => "Error: " ++ e
  | none => if s.isLoading then "Loading..." else "<p>" ++ s.pageText ++ "</p>"

/-- The outcome of the awaited fetch call: either the promise resolves with a
response (ok flag, statusText, body text) or it rejects; a rejection reason is
carried already stringified. -/
inductive FetchOutcome where
  | resolve (resOk : Bool) (statusText : String) (text : String) : FetchOutcome
  | reject (errText : String) : FetchOutcome
deriving DecidableEq

/-- The string interpolation of a thrown JS Error object new Error(msg). -/
def jsErrorString (msg : String) : String := "Error: " ++ msg

/-- changePage (I28.ts lines 21-34), first version, as a function of the fetch
outcome: sets isLoading to true, then on a resolved ok response clears
isLoading and stores the text; on a non-ok response or a rejection the catch
clause only sets the error field. -/
def changePage (s : PageState) (_newPage : String) (o : FetchOutcome) : PageState :=
  let s1 : PageState := { s with isLoading := true }
  match o with
  | .resolve resOk statusText text =>
    if resOk then { s1 with isLoading := false, pageText := text }
    else { s1 with error := some (jsErrorString ("Error with loading new page. " ++ statusText)) }
  | .reject e => { s1 with error := some e }

/-- The synchronous phase of changePage2 (I28.ts lines 99-100), executed
before the await: the entry for newPage is set to pending and currentPage is
set to newPage. -/
def changePage2Sync (s : PageState2) (newPage : String) : PageState2 :=
  { currentPage := newPage, requests := reqSet newPage .pending s.requests }

/-- The try block of changePage2 (I28.ts lines 102-108) after the synchronous
phase: a resolved ok response yields the body text; a non-ok response throws
new Error("Error"); a rejection propagates. -/
def changePage2Body (o : FetchOutcome) : Except String String :=
  match o with
  | .resolve resOk _ text =>
    if resOk then Except.ok text else Except.error (jsErrorString "Error")
  | .reject e => Except.error e

/-- The async try/catch of changePage2: an exception from the body is consumed
by the catch handler, so the resulting promise resolves either way. -/
def tryCatch (body : Except String PageState2) (handler : String → PageState2) :
    Except String PageState2 :=
  match body with
  | Except.ok v => Except.ok v
  | Except.error e => Except.ok (handler e)

/-- changePage2 (I28.ts lines 98-112) as the state reached after the promise
settles: the entry for newPage becomes ok with the text, or error with the
stringified exception. -/
def changePage2 (s : PageState2) (newPage : String) (o : FetchOutcome) : PageState2 :=
  let s1 := changePage2Sync s newPage
  match changePage2Body o with
  | Except.ok text => { s1 with requests := reqSet newPage (.ok text) s1.requests }
  | Except.error e => { s1 with requests := reqSet newPage (.error e) s1.requests }

/-- changePage2 as a possibly-rejecting async computation: the try block's
exception is fed to the catch clause by tryCatch, so the error branch of the
Except is reachable only if the catch clause itself threw. -/
def changePage2Run (s : PageState2) (newPage : String) (o : FetchOutcome) :
    Except String PageState2 :=
  let s1 := changePage2Sync s newPage
  tryCatch
    ((changePage2Body o).map
      (fun text => { s1 with requests := reqSet newPage (.ok text) s1.requests }))
    (fun e => { s1 with requests := reqSet newPage (.error e) s1.requests })

/-! ## Item 25 (src/src/C3/I25.ts): callback cache and client -/

/-- The observable mutable module state of the Item 25 callback example:
the requestStatus variable (I25.ts line 173) and the _cache object (line 157).
unset is its value before any assignment. -/
inductive RStatus where
  | unset : RStatus
  | loading : RStatus
  | success : RStatus
  | failure : RStatus
deriving DecidableEq

structure CbState where
  requestStatus : RStatus
  cache : List (String × String)

/-- The event-loop view of a run: the current mutable state together with the
queue of callbacks deferred by asynchronous fetchURL completions. Each task
transforms the mutable state. -/
def CbWorld : Type := CbState × List (CbState → CbState)

/-- Object assignment on the _cache map. -/
def cacheSet (url text : String) (s : CbState) : CbState :=
  { s with cache := (url, text) :: s.cache }

/-- fetchWithCache, callback version (I25.ts lines 159-168), with the network
response body as the fetchText parameter. A cache hit invokes the callback
immediately, synchronously, during the call; a miss defers a task in which the
fetchURL completion stores the text in _cache and then invokes the callback. -/
def fetchWithCacheCB (url fetchText : String) (cb : String → CbState → CbState)
    (w : CbWorld) : CbWorld :=
  match List.lookup url w.1.cache with
  | some text => (cb text w.1, w.2)
  | none => (w.1, w.2 ++ [fun s => cb fetchText (cacheSet url fetchText s)])

/-- The url built by getUser for a user id (I25.ts line 175). -/
def userUrl (userId : String) : String := "/user/" ++ userId

/-- The callback getUser passes to fetchWithCache (I25.ts lines 175-177): it
sets requestStatus to success. -/
def getUserCallback : String → CbState → CbState :=
  fun _ s => { s with requestStatus := RStatus.success }

/-- getUser (I25.ts lines 174-179): calls fetchWithCache with the callback,
then sets requestStatus to loading. -/
def getUser (userId profileText : String) (w : CbWorld) : CbWorld :=
  let w1 := fetchWithCacheCB (userUrl userId) profileText getUserCallback w
  ({ w1.1 with requestStatus := RStatus.loading }, w1.2)

/-- One round of the event loop after the synchronous code returns: the
deferred tasks run in order. -/
def drain (w : CbWorld) : CbState :=
  w.2.foldl (fun s t => t s) w.1

/-! ## Item 25 async cache (I25.ts lines 186-195) and Item 19 quote cache -/

/-- fetchWithCache, async version (I25.ts lines 186-195), as a function of the
module-level _cache and the network response body: a hit returns the cached
text and leaves the cache alone; a miss returns the fetched text and stores it
in the cache. -/
def fetchWithCacheAsync (url fetchText : String) (cache : List (String × String)) :
    String × List (String × String) :=
  match List.lookup url cache with
  | some text => (text, cache)
  | none => (fetchText, (url, fetchText) :: cache)

/-- What getQuote2 (src/src/C3/I19.ts lines 219-229) hands back to its caller:
a bare number on a cache hit, or a promise (here: the number it settles with)
on a miss. -/
inductive QuoteResult where
  | value (n : Int) : QuoteResult
  | promiseOf (n : Int) : QuoteResult
deriving DecidableEq

/-- getQuote2 (I19.ts lines 219-229), with the quote the network would return
as a parameter, acting on the module-level cache (line 217): a hit returns the
cached number directly; a miss returns a promise that settles with the quote
after storing it in the cache. -/
def getQuote2 (ticker : String) (quote : Int) (cache : List (String × Int)) :
    QuoteResult × List (String × Int) :=
  match List.lookup ticker cache with
  | some n => (QuoteResult.value n, cache)
  | none => (QuoteResult.promiseOf quote, (ticker, quote) :: cache)

/-! ## Chapter 1 (src/src/Chapter01/Chapter01.ts): calculateArea -/

/-- A runtime value of type Shape = Square | Rectangle: every shape has a
width, and the height property is present exactly on rectangles, so it is an
Option. JS numbers are modeled as Int. -/
structure Shape where
  width : Int
  height : Option Int
deriving DecidableEq

/-- calculateArea (Chapter01.ts lines 12-19): the check "height" in shape
narrows to Rectangle and multiplies width by height, otherwise width is
squared. -/
def calculateArea (shape : Shape) : Int :=
  match shape.height with
  | some h => shape.width * h
  | none => shape.width * shape.width

/-! ## The module graph of the repository -/

/-- A source file of the repository with its list of import specifiers, read
off the sources: only src/C3/I27.ts has an import line, import lodash. -/
structure SourceFile where
  path : String
  imports : List String
deriving DecidableEq

/-- All TypeScript source files of the repository and their imports. -/
def repoSourceFiles : List SourceFile :=
  [ ⟨"src/Chapter01/Chapter01.ts", []⟩,
    ⟨"src/C2/I7.ts", []⟩,
    ⟨"src/C2/I12.ts", []⟩,
    ⟨"src/C2/I14.ts", []⟩,
    ⟨"src/C2/I15.ts", []⟩,
    ⟨"src/C2/I17.ts", []⟩,
    ⟨"src/C3/I19.ts", []⟩,
    ⟨"src/C3/I20.ts", []⟩,
    ⟨"src/C3/I21.ts", []⟩,
    ⟨"src/C3/I24.ts", []⟩,
    ⟨"src/C3/I25.ts", []⟩,
    ⟨"src/C3/I26.ts", []⟩,
    ⟨"src/C3/I27.ts", ["lodash"]⟩,
    ⟨"src/C4/I28.ts", []⟩,
    ⟨"src/C4/I29.ts", []⟩,
    ⟨"unnamed/part_000", []⟩,
    ⟨"unnamed/part_001", []⟩,
    ⟨"unnamed/part_002", []⟩,
    ⟨"unnamed/part_003", []⟩,
    ⟨"unnamed/part_004", []⟩,
    ⟨"unnamed/part_005", []⟩,
    ⟨"unnamed/part_006", []⟩,
    ⟨"unnamed/part_007", []⟩ ]

/-- A specifier resolves to a file of the repository only if it is a relative
or rooted path; a bare specifier such as lodash names an external package. -/
def isRelativeSpecifier (m : String) : Bool :=
  match m.data with
  | '.' :: '/' :: _ => true
  | '.' :: '.' :: '/' :: _ => true
  | '/' :: _ => true
  | _ => false

/-- Whether a file imports any sibling file of the repository. -/
def importsAnotherRepoFile (f : SourceFile) : Bool :=
  f.imports.any isRelativeSpecifier

/-! ## Theorems -/

/-- C1: the Item 28 page-load state machine has exactly three states and
exactly two transitions: every RequestState is tagged pending, error or ok and
nothing else, and a changePage2 call moves the entry of newPage to pending in
its synchronous phase and settles it at ok or error — both settlements are
realized by some fetch outcome, and no other settlement is possible. -/
theorem requestState_three_states_two_transitions :
    (∀ r : RequestState,
        r = RequestState.pending ∨ (∃ e, r = RequestState.error e) ∨
          (∃ t, r = RequestState.ok t))
    ∧ (∀ r : RequestState,
        r.tag = "pending" ∨ r.tag = "error" ∨ r.tag = "ok")
    ∧ (∀ (s : PageState2) (p : String),
        List.lookup p (changePage2Sync s p).requests = some RequestState.pending)
    ∧ (∀ (s : PageState2) (p : String) (o : FetchOutcome),
        (∃ t, List.lookup p (changePage2 s p o).requests = some (RequestState.ok t))
      ∨ (∃ e, List.lookup p (changePage2 s p o).requests = some (RequestState.error e)))
    ∧ (∀ (s : PageState2) (p : String), ∃ o t,
        List.lookup p (changePage2 s p o).requests = some (RequestState.ok t))
    ∧ (∀ (s : PageState2) (p : String), ∃ o e,
        List.lookup p (changePage2 s p o).requests = some (RequestState.error e)) := by
  refine ⟨?_, ?_, ?_, ?_, ?_, ?_⟩
  · intro r
    cases r with
    | pending => exact Or.inl rfl
    | error e => exact Or.inr (Or.inl ⟨e, rfl⟩)
    | ok t => exact Or.inr (Or.inr ⟨t, rfl⟩)
  · intro r
    cases r <;> simp [RequestState.tag]
  · intro s p
    simp [changePage2Sync, reqSet, List.lookup]
  · intro s p o
    cases o with
    | resolve resOk stat text =>
      cases resOk
      · exact Or.inr ⟨jsErrorString "Error", by
          simp [changePage2, changePage2Sync, changePage2Body, reqSet, List.lookup]⟩
      · exact Or.inl ⟨text, by
          simp [changePage2, changePage2Sync, changePage2Body, reqSet, List.lookup]⟩
    | reject e =>
      exact Or.inr ⟨e, by
        simp [changePage2, changePage2Sync, changePage2Body, reqSet, List.lookup]⟩
  · intro s p
    exact ⟨FetchOutcome.resolve true "" "text", "text", by
      simp [changePage2, changePage2Sync, changePage2Body, reqSet, List.lookup]⟩
  · intro s p
    exact ⟨FetchOutcome.reject "boom", "boom", by
      simp [changePage2, changePage2Sync, changePage2Body, reqSet, List.lookup]⟩

/-- C2: when the requests map of a PageState2 has an entry for its
currentPage, renderPage2 returns exactly the rendering selected by that
entry's tag: Loading for pending, the error template for error, and the
heading-plus-paragraph template for ok. -/
theorem renderPage2_renders_by_tag (s : PageState2) (r : RequestState)
    (h : List.lookup s.currentPage s.requests = some r) :
    (r = RequestState.pending → renderPage2 s = some "Loading")
    ∧ (∀ e, r = RequestState.error e → renderPage2 s = some ("Error: " ++ e))
    ∧ (∀ t, r = RequestState.ok t →
        renderPage2 s = some ("<h1>" ++ s.currentPage ++ "</h1><p>" ++ t ++ "</p>")) := by
  refine ⟨?_, ?_, ?_⟩
  · rintro rfl
    simp [renderPage2, h]
  · rintro e rfl
    simp [renderPage2, h]
  · rintro t rfl
    simp [renderPage2, h]

/-- Witness for C2 at concrete states, one per tag. -/
theorem renderPage2_renders_by_tag_witness :
    renderPage2 ⟨"a", [("a", RequestState.pending)]⟩ = some "Loading"
    ∧ renderPage2 ⟨"a", [("a", RequestState.error "e1")]⟩ = some "Error: e1"
    ∧ renderPage2 ⟨"a", [("a", RequestState.ok "body")]⟩ =
        some "<h1>a</h1><p>body</p>" := by
  refine ⟨?_, ?_, ?_⟩
  · exact (renderPage2_renders_by_tag ⟨"a", [("a", RequestState.pending)]⟩
      RequestState.pending (by decide)).1 rfl
  · have := (renderPage2_renders_by_tag ⟨"a", [("a", RequestState.error "e1")]⟩
      (RequestState.error "e1") (by decide)).2.1 "e1" rfl
    simpa using this
  · have := (renderPage2_renders_by_tag ⟨"a", [("a", RequestState.ok "body")]⟩
      (RequestState.ok "body") (by decide)).2.2 "body" rfl
    simpa using this

/-- C3: every RequestState is exactly one of the three record shapes, each
carrying only its own data, so a loading state and an error state are mutually
exclusive, while the first PageState type admits a value with isLoading true
and error set at once. -/
theorem requestState_valid_states_only :
    (∀ r : RequestState,
        (r = RequestState.pending ∧ r.isPending = true ∧ r.isErrorTag = false
          ∧ r.isOkTag = false)
      ∨ (∃ e, r = RequestState.error e ∧ r.isPending = false ∧ r.isErrorTag = true
          ∧ r.isOkTag = false)
      ∨ (∃ t, r = RequestState.ok t ∧ r.isPending = false ∧ r.isErrorTag = false
          ∧ r.isOkTag = true))
    ∧ (∃ p : PageState, p.isLoading = true ∧ p.error.isSome = true) := by
  constructor
  · intro r
    cases r with
    | pending => exact Or.inl ⟨rfl, rfl, rfl, rfl⟩
    | error e => exact Or.inr (Or.inl ⟨e, rfl, rfl, rfl, rfl⟩)
    | ok t => exact Or.inr (Or.inr ⟨t, rfl, rfl, rfl, rfl⟩)
  · exact ⟨⟨"", true, some "boom"⟩, rfl, rfl⟩

/-- C7: calculateArea multiplies width by height when the height property is
present, and squares width when it is absent; the branch taken is decided by
the presence check. -/
theorem calculateArea_by_shape (shape : Shape) :
    (∀ h, shape.height = some h → calculateArea shape = shape.width * h)
    ∧ (shape.height = none → calculateArea shape = shape.width * shape.width) := by
  constructor
  · intro h hh
    simp [calculateArea, hh]
  · intro hh
    simp [calculateArea, hh]

/-- Witness for C7: a rectangle of width 3 and height 4, and a square of
width 3. -/
theorem calculateArea_by_shape_witness :
    calculateArea ⟨3, some 4⟩ = 12 ∧ calculateArea ⟨3, none⟩ = 9 := by
  constructor
  · have := (calculateArea_by_shape ⟨3, some 4⟩).1 4 rfl
    simpa using this
  · have := (calculateArea_by_shape ⟨3, none⟩).2 rfl
    simpa using this

/-- C8: for every state, page and fetch outcome, the promise returned by
changePage2 resolves (never rejects), and in the settled state currentPage
equals newPage and the entry for newPage is tagged ok or error, never left
pending. -/
theorem changePage2_never_rejects (s : PageState2) (newPage : String)
    (o : FetchOutcome) :
    ∃ s2, changePage2Run s newPage o = Except.ok s2
      ∧ s2.currentPage = newPage
      ∧ ((∃ t, List.lookup newPage s2.requests = some (RequestState.ok t))
        ∨ (∃ e, List.lookup newPage s2.requests = some (RequestState.error e))) := by
  cases o with
  | resolve resOk stat text =>
    cases resOk
    · exact ⟨_, rfl, rfl,
        Or.inr ⟨jsErrorString "Error", by simp [changePage2Sync, reqSet, List.lookup]⟩⟩
    · exact ⟨_, rfl, rfl,
        Or.inl ⟨text, by simp [changePage2Sync, reqSet, List.lookup]⟩⟩
  | reject e =>
    exact ⟨_, rfl, rfl,
      Or.inr ⟨e, by simp [changePage2Sync, reqSet, List.lookup]⟩⟩

/-- C9: renderPage2 is partial at its public interface: when currentPage has
no entry in requests the lookup misses and no rendering is produced (the
runtime error branch), and whenever the entry exists some rendering string is
produced, so the none branch is unreachable exactly under that precondition. -/
theorem renderPage2_partial_on_missing_entry (s : PageState2) :
    (List.lookup s.currentPage s.requests = none → renderPage2 s = none)
    ∧ (∀ r, List.lookup s.currentPage s.requests = some r →
        ∃ out, renderPage2 s = some out) := by
  constructor
  · intro h
    simp [renderPage2, h]
  · intro r h
    cases r with
    | pending => exact ⟨"Loading", by simp [renderPage2, h]⟩
    | error e => exact ⟨"Error: " ++ e, by simp [renderPage2, h]⟩
    | ok t =>
      exact ⟨"<h1>" ++ s.currentPage ++ "</h1><p>" ++ t ++ "</p>", by
        simp [renderPage2, h]⟩

/-- Witness for C9: a state whose current page has no entry renders nothing; a
state with a pending entry renders something. -/
theorem renderPage2_partial_on_missing_entry_witness :
    renderPage2 ⟨"a", []⟩ = none
    ∧ ∃ out, renderPage2 ⟨"a", [("a", RequestState.pending)]⟩ = some out := by
  constructor
  · exact (renderPage2_partial_on_missing_entry ⟨"a", []⟩).1 rfl
  · exact (renderPage2_partial_on_missing_entry ⟨"a", [("a", RequestState.pending)]⟩).2
      RequestState.pending (by decide)

/-- C10: the first changePage does not restore its flags: on a rejected fetch
or a non-ok response isLoading is still true after the call settles and only
the error field was written, and on success the error field keeps whatever
value it had before the call. -/
theorem changePage_leaves_stale_flags (s : PageState) (p : String) (o : FetchOutcome) :
    (∀ e, o = FetchOutcome.reject e →
        (changePage s p o).isLoading = true ∧ (changePage s p o).error = some e
        ∧ (changePage s p o).pageText = s.pageText)
    ∧ (∀ stat text, o = FetchOutcome.resolve false stat text →
        (changePage s p o).isLoading = true
        ∧ (changePage s p o).error =
            some (jsErrorString ("Error with loading new page. " ++ stat))
        ∧ (changePage s p o).pageText = s.pageText)
    ∧ (∀ stat text, o = FetchOutcome.resolve true stat text →
        (changePage s p o).error = s.error ∧ (changePage s p o).isLoading = false) := by
  refine ⟨?_, ?_, ?_⟩
  · rintro e rfl
    simp [changePage]
  · rintro stat text rfl
    simp [changePage]
  · rintro stat text rfl
    simp [changePage]

/-- Witness for C10: a state that already carries an error, hit by a
rejection, a non-ok response and a success. -/
theorem changePage_leaves_stale_flags_witness :
    (changePage ⟨"old", false, some "stale"⟩ "p" (FetchOutcome.reject "netdown")).isLoading
        = true
    ∧ (changePage ⟨"old", false, some "stale"⟩ "p"
        (FetchOutcome.resolve false "504" "ignored")).isLoading = true
    ∧ (changePage ⟨"old", false, some "stale"⟩ "p"
        (FetchOutcome.resolve true "200" "fresh")).error = some "stale" := by
  refine ⟨?_, ?_, ?_⟩
  · exact ((changePage_leaves_stale_flags ⟨"old", false, some "stale"⟩ "p"
      (FetchOutcome.reject "netdown")).1 "netdown" rfl).1
  · exact ((changePage_leaves_stale_flags ⟨"old", false, some "stale"⟩ "p"
      (FetchOutcome.resolve false "504" "ignored")).2.1 "504" "ignored" rfl).1
  · have := ((changePage_leaves_stale_flags ⟨"old", false, some "stale"⟩ "p"
      (FetchOutcome.resolve true "200" "fresh")).2.2 "200" "fresh" rfl).1
    simpa using this

/-- C5: in the callback-based fetchWithCache, a cached url invokes the
callback synchronously (the call returns the callback's effect applied at
once, with no task deferred), while a miss leaves the state untouched during
the call and defers exactly one task; consequently getUser leaves
requestStatus at loading when the profile was cached, and at success, after
the deferred completion runs, when it was not. -/
theorem getUser_status_depends_on_cache (uid ptext : String) (s : CbState)
    (q : List (CbState → CbState)) :
    (∀ ctext, List.lookup (userUrl uid) s.cache = some ctext →
        fetchWithCacheCB (userUrl uid) ptext getUserCallback (s, q) =
          (getUserCallback ctext s, q)
      ∧ (drain (getUser uid ptext (s, []))).requestStatus = RStatus.loading)
    ∧ (List.lookup (userUrl uid) s.cache = none →
        (fetchWithCacheCB (userUrl uid) ptext getUserCallback (s, q)).1 = s
      ∧ (fetchWithCacheCB (userUrl uid) ptext getUserCallback (s, q)).2.length
          = q.length + 1
      ∧ (getUser uid ptext (s, [])).1.requestStatus = RStatus.loading
      ∧ (drain (getUser uid ptext (s, []))).requestStatus = RStatus.success) := by
  constructor
  · intro ctext h
    constructor
    · simp [fetchWithCacheCB, h]
    · simp [drain, getUser, fetchWithCacheCB, h]
  · intro h
    refine ⟨?_, ?_, ?_, ?_⟩
    · simp [fetchWithCacheCB, h]
    · simp [fetchWithCacheCB, h]
    · simp [getUser, fetchWithCacheCB, h]
    · simp [drain, getUser, fetchWithCacheCB, h, getUserCallback, cacheSet]

/-- Witness for C5: user u1 with the profile already cached ends at loading;
with an empty cache it ends at success. -/
theorem getUser_status_depends_on_cache_witness :
    (drain (getUser "u1" "p" (⟨RStatus.unset, [("/user/u1", "cp")]⟩, []))).requestStatus
        = RStatus.loading
    ∧ (drain (getUser "u1" "p" (⟨RStatus.unset, []⟩, []))).requestStatus
        = RStatus.success := by
  constructor
  · exact ((getUser_status_depends_on_cache "u1" "p"
      ⟨RStatus.unset, [("/user/u1", "cp")]⟩ []).1 "cp" (by decide)).2
  · exact ((getUser_status_depends_on_cache "u1" "p"
      ⟨RStatus.unset, []⟩ []).2 (by decide)).2.2.2

/-- C4 as stated is false on the code: getQuote2 with an empty module cache
leaves a cache entry behind, and a second identical call returns a different
kind of result than the first, so its result depends on the calls made before
it. -/
theorem no_module_state_counterexample :
    (getQuote2 "AAPL" 10 []).2 ≠ ([] : List (String × Int))
    ∧ (getQuote2 "AAPL" 10 (getQuote2 "AAPL" 10 []).2).1 ≠
        (getQuote2 "AAPL" 10 []).1 := by
  constructor
  · intro h
    simp [getQuote2, List.lookup] at h
  · intro h
    simp [getQuote2, List.lookup] at h

/-- C4 amended: false as stated — the Item 19 and Item 25 snippets define
module-level mutable state with a lifecycle beyond a single call that drives
behavior: the quote cache of getQuote2, the _cache of both the callback and
the async fetchWithCache, and the requestStatus variable. Each cache function
answers a hit differently from a miss and extends its module cache on a miss;
the callback fetchWithCache's deferred completion writes _cache after the call
returns, and the whole getUser interaction leaves requestStatus at loading on
a hit and success on a miss, so these functions leave module-level state
behind and their results depend on which calls were made before. -/
theorem cache_functions_keep_module_state (ticker : String) (quote : Int)
    (qcache : List (String × Int)) (url ftext : String)
    (tcache : List (String × String)) (uid ptext : String) (s : CbState) :
    (∀ n, List.lookup ticker qcache = some n →
        getQuote2 ticker quote qcache = (QuoteResult.value n, qcache))
    ∧ (List.lookup ticker qcache = none →
        getQuote2 ticker quote qcache =
          (QuoteResult.promiseOf quote, (ticker, quote) :: qcache))
    ∧ (∀ t, List.lookup url tcache = some t →
        fetchWithCacheAsync url ftext tcache = (t, tcache))
    ∧ (List.lookup url tcache = none →
        fetchWithCacheAsync url ftext tcache = (ftext, (url, ftext) :: tcache))
    ∧ (List.lookup (userUrl uid) s.cache = none →
        (drain (getUser uid ptext (s, []))).cache = (userUrl uid, ptext) :: s.cache
        ∧ (drain (getUser uid ptext (s, []))).requestStatus = RStatus.success)
    ∧ (∀ ctext, List.lookup (userUrl uid) s.cache = some ctext →
        (drain (getUser uid ptext (s, []))).cache = s.cache
        ∧ (drain (getUser uid ptext (s, []))).requestStatus = RStatus.loading) := by
  refine ⟨?_, ?_, ?_, ?_, ?_, ?_⟩
  · intro n h
    simp [getQuote2, h]
  · intro h
    simp [getQuote2, h]
  · intro t h
    simp [fetchWithCacheAsync, h]
  · intro h
    simp [fetchWithCacheAsync, h]
  · intro h
    constructor
    · simp [drain, getUser, fetchWithCacheCB, h, getUserCallback, cacheSet]
    · simp [drain, getUser, fetchWithCacheCB, h, getUserCallback, cacheSet]
  · intro ctext h
    constructor
    · simp [drain, getUser, fetchWithCacheCB, h, getUserCallback]
    · simp [drain, getUser, fetchWithCacheCB, h, getUserCallback]

/-- Witness for the amended C4: a hit and a miss of each cache, and the
callback interaction writing _cache and leaving requestStatus set. -/
theorem cache_functions_keep_module_state_witness :
    getQuote2 "A" 7 [("A", 3)] = (QuoteResult.value 3, [("A", 3)])
    ∧ getQuote2 "A" 7 [] = (QuoteResult.promiseOf 7, [("A", 7)])
    ∧ fetchWithCacheAsync "/u" "t2" [("/u", "t1")] = ("t1", [("/u", "t1")])
    ∧ fetchWithCacheAsync "/u" "t2" [] = ("t2", [("/u", "t2")])
    ∧ (drain (getUser "u1" "p" (⟨RStatus.unset, []⟩, []))).cache = [("/user/u1", "p")]
    ∧ (drain (getUser "u1" "p" (⟨RStatus.unset, []⟩, []))).requestStatus
        = RStatus.success
    ∧ (drain (getUser "u1" "p" (⟨RStatus.unset, [("/user/u1", "cp")]⟩, []))).cache
        = [("/user/u1", "cp")]
    ∧ (drain (getUser "u1" "p"
        (⟨RStatus.unset, [("/user/u1", "cp")]⟩, []))).requestStatus
        = RStatus.loading := by
  refine ⟨?_, ?_, ?_, ?_, ?_, ?_, ?_, ?_⟩
  · exact (cache_functions_keep_module_state "A" 7 [("A", 3)] "/u" "t2" [] "u1" "p"
      ⟨RStatus.unset, []⟩).1 3 (by decide)
  · exact (cache_functions_keep_module_state "A" 7 [] "/u" "t2" [] "u1" "p"
      ⟨RStatus.unset, []⟩).2.1 (by decide)
  · exact (cache_functions_keep_module_state "A" 7 [] "/u" "t2" [("/u", "t1")] "u1"
      "p" ⟨RStatus.unset, []⟩).2.2.1 "t1" (by decide)
  · exact (cache_functions_keep_module_state "A" 7 [] "/u" "t2" [] "u1" "p"
      ⟨RStatus.unset, []⟩).2.2.2.1 (by decide)
  · have := ((cache_functions_keep_module_state "A" 7 [] "/u" "t2" [] "u1" "p"
      ⟨RStatus.unset, []⟩).2.2.2.2.1 (by decide)).1
    simpa [userUrl] using this
  · exact ((cache_functions_keep_module_state "A" 7 [] "/u" "t2" [] "u1" "p"
      ⟨RStatus.unset, []⟩).2.2.2.2.1 (by decide)).2
  · exact ((cache_functions_keep_module_state "A" 7 [] "/u" "t2" [] "u1" "p"
      ⟨RStatus.unset, [("/user/u1", "cp")]⟩).2.2.2.2.2 "cp" (by decide)).1
  · exact ((cache_functions_keep_module_state "A" 7 [] "/u" "t2" [] "u1" "p"
      ⟨RStatus.unset, [("/user/u1", "cp")]⟩).2.2.2.2.2 "cp" (by decide)).2

/-- C6: every source file of the repository is a leaf: the only import
specifier appearing anywhere is the bare external specifier lodash, and no
file's import list contains a relative or rooted specifier, so no file
resolves to another file of the repository. -/
theorem repo_files_are_leaves :
    (∀ f, f ∈ repoSourceFiles → ∀ m, m ∈ f.imports → m = "lodash")
    ∧ (∀ f, f ∈ repoSourceFiles → importsAnotherRepoFile f = false) := by
  constructor
  · intro f hf m hm
    fin_cases hf <;> simp_all
  · intro f hf
    fin_cases hf <;> decide

/-- Witness for C6 at the one file with an import, src/C3/I27.ts. -/
theorem repo_files_are_leaves_witness :
    ((⟨"src/C3/I27.ts", ["lodash"]⟩ : SourceFile) ∈ repoSourceFiles)
    ∧ ("lodash" : String) = "lodash"
    ∧ importsAnotherRepoFile ⟨"src/C3/I27.ts", ["lodash"]⟩ = false := by
  refine ⟨by decide, ?_, ?_⟩
  · exact repo_files_are_leaves.1 ⟨"src/C3/I27.ts", ["lodash"]⟩ (by decide)
      "lodash" (by decide)
  · exact repo_files_are_leaves.2 ⟨"src/C3/I27.ts", ["lodash"]⟩ (by decide)
